import Mathlib

/-!
# The weather relay of `server.js`

A shallow embedding of the single route `GET /api/weather` of `src/server.js`
(lines 20-76) and of the pieces of JavaScript and of the HTTP client it relies on:
truthiness, template-literal string conversion, `encodeURIComponent`, and the way
`axios.get` settles a promise.

The handler is a pure function of three inputs:

* the process environment value `OPENWEATHER_API_KEY` (line 9),
* the parsed query string `req.query` (line 21),
* the behaviour of the upstream provider, given as a function from the requested
  URL to what the network returns for it.

Its result is the list of outbound URLs it requested, in order, together with the
`res.status(..).json(..)` call it made (or the fact that an exception escaped the
handler before any such call). Console logging is not modelled.

Scope of the model:

* a response is the status and the JSON value the handler hands to `res`; what the
  framework does with them afterwards (serialisation, headers) is not modelled;
* a query parameter is absent, a string, or an array of strings (a repeated
  parameter); nested values built from bracketed keys are not modelled;
* strings are sequences of Unicode scalar values, which is what a parsed query string
  holds; a decoded body with an unpaired surrogate is not modelled;
* `response.data` is the value the HTTP client decoded (`JSON.parse`): its numbers are
  IEEE 754 doubles, and a body that is not JSON text is the string of its characters;
* `res.json` serialises with `JSON.stringify`; the body of a response is the value the
  serialised text denotes;
* `axios.get` resolves exactly on a 2xx status (its default `validateStatus`), and what
  happens on the wire (redirects, time-outs) is summarised by `NetResult`.
-/

namespace WeatherBackend

/-! ## JavaScript values -/

/-- A number as `JSON.parse` returns it: an IEEE 754 double given by its sign, its
biased exponent field (`0` to `2046`) and its fraction field (below `2 ^ 52`), or an
infinity, which is what a literal beyond the double range decodes to. With `expo = 0`
the value is `frac * 2 ^ (-1074)` (zero or subnormal), otherwise it is
`(2 ^ 52 + frac) * 2 ^ (expo - 1075)`. -/
inductive JsonNumber where
  | finite (neg : Bool) (expo : Nat) (frac : Nat)
  | infinite (neg : Bool)
  deriving DecidableEq

/-- Quotient of `n` by `d` rounded to nearest, ties to even. -/
def roundHalfEven (n d : Nat) : Nat :=
  if 2 * (n % d) < d then n / d
  else if d < 2 * (n % d) then n / d + 1
  else if n / d % 2 = 0 then n / d else n / d + 1

/-- Divide `n` by `2 ^ k` until it is below `2 ^ k`, counting the bits taken off. -/
def stripBits (k : Nat) : Nat → Nat → Nat → Nat × Nat
  | 0, n, acc => (n, acc)
  | fuel + 1, n, acc =>
    if n < 2 ^ k then (n, acc) else stripBits k fuel (n / 2 ^ k) (acc + k)

/-- Number of binary digits of `n`. -/
def bitLength (n : Nat) : Nat :=
  let a := stripBits 256 n n 0
  let b := stripBits 16 a.1 a.1 a.2
  let c := stripBits 1 b.1 b.1 b.2
  if c.1 = 0 then c.2 else c.2 + 1

/-- The greatest `E` with `2 ^ E ≤ p / q`, for positive `p` and `q`. -/
def floorLog2 (p q : Nat) : Int :=
  if bitLength q ≤ bitLength p then
    if q * 2 ^ (bitLength p - bitLength q) ≤ p then
      ((bitLength p - bitLength q : Nat) : Int)
    else ((bitLength p - bitLength q : Nat) : Int) - 1
  else
    if q ≤ p * 2 ^ (bitLength q - bitLength p) then
      -((bitLength q - bitLength p : Nat) : Int)
    else -((bitLength q - bitLength p : Nat) : Int) - 1

/-- The integer nearest to `p / q * 2 ^ (52 - e)`, ties to even. -/
def scaledSig (p q : Nat) (e : Int) : Nat :=
  if e ≤ 52 then roundHalfEven (p * 2 ^ (52 - e).toNat) q
  else roundHalfEven p (q * 2 ^ (e - 52).toNat)

/-- The double nearest to the rational `p / q`, for positive `q` (round to nearest,
ties to even), with the given sign; a magnitude beyond the double range gives an
infinity. -/
def JsonNumber.ofRatio (neg : Bool) (p q : Nat) : JsonNumber :=
  if p = 0 then .finite neg 0 0
  else
    let e := max (floorLog2 p q) (-1022)
    let sig := scaledSig p q e
    if sig < 2 ^ 52 then .finite neg 0 sig
    else if sig = 2 ^ 53 then
      if 1023 < e + 1 then .infinite neg else .finite neg (e + 1 + 1023).toNat 0
    else
      if 1023 < e then .infinite neg else .finite neg (e + 1023).toNat (sig - 2 ^ 52)

/-- The double `JSON.parse` returns for the JSON number written as the decimal
`m * 10 ^ e`, with a leading minus sign when `neg`. -/
def JsonNumber.ofDecimal (neg : Bool) (m : Nat) (e : Int) : JsonNumber :=
  if 0 ≤ e then ofRatio neg (m * 10 ^ e.toNat) 1 else ofRatio neg m (10 ^ (-e).toNat)

/-- The JavaScript number holding the integer `n`, such as an HTTP status. -/
def JsonNumber.ofNat (n : Nat) : JsonNumber :=
  ofRatio false n 1

/-- Decoded JSON values, as found in `response.data`. An object is the list of its own
properties in enumeration order (each key once). -/
inductive Json where
  | null
  | bool (b : Bool)
  | num (x : JsonNumber)
  | str (s : String)
  | arr (items : List Json)
  | obj (fields : List (String × Json))

/-- JavaScript truthiness of a decoded JSON value: `null`, `false`, the two zeros and
the empty string are falsy, everything else (infinities, arrays and objects included)
is truthy. -/
def Json.truthy : Json → Bool
  | .null => false
  | .bool b => b
  | .num (.finite _ 0 0) => false
  | .num _ => true
  | .str s => s != ""
  | .arr _ => true
  | .obj _ => true

mutual
/-- The value denoted by the text `JSON.stringify` produces for a decoded value: an
infinity is written `null` and negative zero is written `0`; strings, booleans, `null`
and every other number are kept, arrays and objects are serialised member by member. -/
def jsonStringify : Json → Json
  | .num (.finite true 0 0) => .num (.finite false 0 0)
  | .num (.infinite _) => .null
  | .arr items => .arr (stringifyItems items)
  | .obj fields => .obj (stringifyFields fields)
  | v => v
/-- Serialisation of the elements of an array. -/
def stringifyItems : List Json → List Json
  | [] => []
  | v :: vs => jsonStringify v :: stringifyItems vs
/-- Serialisation of the properties of an object. -/
def stringifyFields : List (String × Json) → List (String × Json)
  | [] => []
  | (k, v) :: rest => (k, jsonStringify v) :: stringifyFields rest
end

mutual
/-- A value that holds no infinity and no negative zero. -/
def Json.wireSafe : Json → Bool
  | .num (.finite true 0 0) => false
  | .num (.infinite _) => false
  | .arr items => Json.wireSafeItems items
  | .obj fields => Json.wireSafeFields fields
  | _ => true
/-- All elements of an array are free of infinities and negative zeros. -/
def Json.wireSafeItems : List Json → Bool
  | [] => true
  | v :: vs => Json.wireSafe v && Json.wireSafeItems vs
/-- All properties of an object are free of infinities and negative zeros. -/
def Json.wireSafeFields : List (String × Json) → Bool
  | [] => true
  | (_, v) :: rest => Json.wireSafe v && Json.wireSafeFields rest
end

/-- The property read `data.message` of line 65. Reading a property of `null`
throws a TypeError (`none`); on an object it is the own property `message`, or
`undefined` (`some none`) when there is none; strings, numbers, booleans and arrays
have no such property. -/
def Json.message : Json → Option (Option Json)
  | .null => none
  | .obj fields => some (fields.lookup "message")
  | _ => some none

/-- The JavaScript expression `a || b`, where `a` may be `undefined` (`none`). -/
def jsOr (a : Option Json) (b : Json) : Json :=
  match a with
  | some v => if v.truthy then v else b
  | none => b

/-- Does the JSON value have an own property `key`? -/
def Json.hasField (key : String) : Json → Bool
  | .obj fields => fields.any (fun kv => kv.1 == key)
  | _ => false

/-- A value of `req.query`: a string, or an array of strings when the parameter is
repeated in the query string. -/
inductive QVal where
  | str (s : String)
  | arr (items : List String)

/-- JavaScript truthiness of a query value that may be absent (`undefined`):
only `undefined` and the empty string are falsy. -/
def qTruthy : Option QVal → Bool
  | none => false
  | some (.str s) => s != ""
  | some (.arr _) => true

/-- String conversion of a query value, as done by a template literal and by
`encodeURIComponent`: an array is joined with commas, `undefined` prints as such. -/
def qToString : Option QVal → String
  | none => "undefined"
  | some (.str s) => s
  | some (.arr items) => ",".intercalate items

/-! ## `encodeURIComponent` -/

/-- Upper-case hexadecimal digit of a number below sixteen. -/
def hexDigit (n : Nat) : Char :=
  if n < 10 then Char.ofNat (48 + n) else Char.ofNat (55 + n)

/-- The escape `%XY` of one byte. -/
def percentByte (b : Nat) : List Char :=
  [Char.ofNat 37, hexDigit (b / 16), hexDigit (b % 16)]

/-- UTF-8 encoding of a code point. -/
def utf8Bytes (c : Nat) : List Nat :=
  if c < 0x80 then [c]
  else if c < 0x800 then [0xC0 + c / 64, 0x80 + c % 64]
  else if c < 0x10000 then [0xE0 + c / 4096, 0x80 + c / 64 % 64, 0x80 + c % 64]
  else [0xF0 + c / 262144, 0x80 + c / 4096 % 64, 0x80 + c / 64 % 64, 0x80 + c % 64]

/-- The characters `encodeURIComponent` leaves alone: ASCII letters, digits and
`- _ . ! ~ * ( )` and the single quote. -/
def uriUnreserved (c : Nat) : Bool :=
  (65 ≤ c && c ≤ 90) || (97 ≤ c && c ≤ 122) || (48 ≤ c && c ≤ 57) ||
  c == 45 || c == 95 || c == 46 || c == 33 || c == 126 || c == 42 || c == 39 ||
  c == 40 || c == 41

/-- Encoding of one character. -/
def encodeChar (c : Char) : List Char :=
  if uriUnreserved c.toNat then [c] else (utf8Bytes c.toNat).flatMap percentByte

/-- The JavaScript builtin `encodeURIComponent` on a well-formed string. -/
def encodeURIComponent (s : String) : String :=
  String.mk (s.toList.flatMap encodeChar)

/-! ## The HTTP client -/

/-- What the network gives back for one outbound GET: a complete HTTP response
(status and decoded body), no response at all (time-out, unreachable host), or a
failure before the request could be sent. -/
inductive NetResult where
  | response (status : Nat) (data : Json)
  | noResponse
  | setupFailure

/-- The error object `axios.get` rejects with: `error.response` (status and body)
when the upstream answered, and whether `error.request` is set. -/
structure AxiosError where
  response : Option (Nat × Json)
  request : Bool

/-- The default `validateStatus` of axios: a promise resolves on a 2xx status. -/
def validateStatus (status : Nat) : Bool :=
  200 ≤ status && status < 300

/-- `await axios.get(url)` followed by `.data`: the decoded body of a 2xx response,
or the thrown error. -/
def axiosGet (net : String → NetResult) (url : String) : Except AxiosError Json :=
  match net url with
  | .response status data =>
    if validateStatus status then .ok data
    else .error ⟨some (status, data), true⟩
  | .noResponse => .error ⟨none, true⟩
  | .setupFailure => .error ⟨none, false⟩

/-! ## The handler -/

/-- The three query parameters the handler destructures from `req.query`. -/
structure Query where
  city : Option QVal
  lat : Option QVal
  lon : Option QVal

/-- A response as sent by `res.status(status).json(..)`: the status and the value of
the serialised body. -/
structure Response where
  status : Nat
  body : Json

/-- How the handler ends: it sent a response, or an exception escaped it. -/
inductive Outcome where
  | sent (r : Response)
  | uncaught

/-- One run of the handler: the outbound URLs requested, in order, and the outcome. -/
structure Run where
  calls : List String
  outcome : Outcome

/-- The constant of line 10. -/
def OPENWEATHER_BASE_URL : String := "https://api.openweathermap.org/data/2.5"

/-- Truthiness of an environment value (`undefined` or a string). -/
def envTruthy : Option String → Bool
  | none => false
  | some k => k != ""

/-- String conversion of an environment value inside a template literal. -/
def envToString : Option String → String
  | none => "undefined"
  | some k => k

/-- Lines 26-36: the location fragment `queryParam`, or `none` when the handler
takes the 400 branch. -/
def queryParam (q : Query) : Option String :=
  if qTruthy q.city then
    some ("q=" ++ encodeURIComponent (qToString q.city))
  else if qTruthy q.lat && qTruthy q.lon then
    some ("lat=" ++ qToString q.lat ++ "&lon=" ++ qToString q.lon)
  else
    none

/-- Line 45, with `urlEndpoint` equal to `weather` on both branches. -/
def currentWeatherUrl (key : Option String) (frag : String) : String :=
  OPENWEATHER_BASE_URL ++ "/" ++ "weather" ++ "?" ++ frag ++ "&appid=" ++
    envToString key ++ "&units=metric"

/-- Line 51. -/
def forecastUrl (key : Option String) (frag : String) : String :=
  OPENWEATHER_BASE_URL ++ "/forecast?" ++ frag ++ "&appid=" ++
    envToString key ++ "&units=metric"

/-- The body of line 35. -/
def missingLocationBody : Json :=
  .obj [("error", .str "City or latitude/longitude parameters are required")]

/-- The body of line 40. -/
def missingKeyBody : Json :=
  .obj [("error", .str "Server configuration error: API Key missing")]

/-- The call `res.status(status).json(body)`: the body is serialised with
`JSON.stringify`. -/
def resJson (status : Nat) (body : Json) : Response :=
  ⟨status, jsonStringify body⟩

/-- Lines 60-75: the catch block. -/
def catchBlock (error : AxiosError) : Outcome :=
  match error.response with
  | some (status, data) =>
    match data.message with
    | none => .uncaught
    | some m =>
      .sent (resJson status
        (.obj [("error", jsOr m (.str "Error from external weather service")),
          ("code", .num (JsonNumber.ofNat status))]))
  | none =>
    if error.request then
      .sent (resJson 500
        (.obj [("error", .str "No response from external weather service")]))
    else
      .sent (resJson 500 (.obj [("error", .str "Internal server error")]))

/-- Lines 44-58: the body of the `try` block. It gives the outbound URLs requested, in
order, and either the response of line 55 or the error thrown by the first call that
fails. -/
def tryBlock (key : Option String) (net : String → NetResult) (frag : String) :
    List String × Except AxiosError Response :=
  match axiosGet net (currentWeatherUrl key frag) with
  | .error e => ([currentWeatherUrl key frag], .error e)
  | .ok currentWeatherData =>
    match axiosGet net (forecastUrl key frag) with
    | .error e => ([currentWeatherUrl key frag, forecastUrl key frag], .error e)
    | .ok forecastData =>
      ([currentWeatherUrl key frag, forecastUrl key frag],
        .ok (resJson 200
          (.obj [("current", currentWeatherData), ("forecast", forecastData)])))

/-- Lines 20-76: the handler of `GET /api/weather`. -/
def handler (key : Option String) (net : String → NetResult) (q : Query) : Run :=
  match queryParam q with
  | none => ⟨[], .sent (resJson 400 missingLocationBody)⟩
  | some frag =>
    if !envTruthy key then
      ⟨[], .sent (resJson 500 missingKeyBody)⟩
    else
      match tryBlock key net frag with
      | (calls, .ok r) => ⟨calls, .sent r⟩
      | (calls, .error error) => ⟨calls, catchBlock error⟩

/-! ## Basic facts about the embedding -/

theorem stripBits_of_lt (k fuel n acc : Nat) (h : n < 2 ^ k) :
    stripBits k fuel n acc = (n, acc) := by
  cases fuel with
  | zero => rfl
  | succ f => simp [stripBits, h]

theorem stripBits_snd_le (k : Nat) :
    ∀ fuel n acc, (stripBits k fuel n acc).2 ≤ acc + k * fuel := by
  intro fuel
  induction fuel with
  | zero => intro n acc; simp [stripBits]
  | succ f ih =>
    intro n acc
    unfold stripBits
    split_ifs with h
    · simp
    · have := ih (n / 2 ^ k) (acc + k)
      rw [Nat.mul_succ]
      omega

theorem bitLength_le (n : Nat) (h : n < 2 ^ 16) : bitLength n ≤ n + 1 := by
  have h256 : n < 2 ^ 256 := lt_of_lt_of_le h (Nat.pow_le_pow_right (by decide) (by decide))
  have h3 := stripBits_snd_le 1 n n 0
  simp only [bitLength, stripBits_of_lt 256 n n 0 h256, stripBits_of_lt 16 n n 0 h]
  split_ifs <;> omega

theorem floorLog2_le (p : Nat) : floorLog2 p 1 ≤ (bitLength p : Int) := by
  unfold floorLog2
  split_ifs <;> omega

/-- An integer below one thousand, such as an HTTP status, is a finite non-negative
double. -/
theorem ofNat_finite (n : Nat) (h : n < 1000) :
    ∃ expo frac, JsonNumber.ofNat n = .finite false expo frac := by
  have hb : bitLength n ≤ n + 1 := bitLength_le n (by omega)
  have hf := floorLog2_le n
  have he : max (floorLog2 n 1) (-1022) ≤ 1001 := by
    rw [max_le_iff]
    constructor <;> omega
  unfold JsonNumber.ofNat JsonNumber.ofRatio
  by_cases h0 : n = 0
  · exact ⟨0, 0, by simp [h0]⟩
  · simp only [h0, if_false]
    split_ifs with h1 h2 h3 h4
    · exact ⟨_, _, rfl⟩
    · omega
    · exact ⟨_, _, rfl⟩
    · omega
    · exact ⟨_, _, rfl⟩

theorem jsonStringify_finite_nonneg (expo frac : Nat) :
    jsonStringify (.num (.finite false expo frac)) = .num (.finite false expo frac) := by
  simp [jsonStringify]

theorem jsonStringify_ofNat (n : Nat) (h : n < 1000) :
    jsonStringify (.num (JsonNumber.ofNat n)) = .num (JsonNumber.ofNat n) := by
  obtain ⟨expo, frac, hn⟩ := ofNat_finite n h
  rw [hn, jsonStringify_finite_nonneg]

mutual
theorem jsonStringify_of_wireSafe : (v : Json) → v.wireSafe = true → jsonStringify v = v
  | .null, _ => rfl
  | .bool _, _ => rfl
  | .str _, _ => rfl
  | .num (.infinite _), h => by simp [Json.wireSafe] at h
  | .num (.finite false _ _), _ => jsonStringify_finite_nonneg _ _
  | .num (.finite true (_ + 1) _), _ => by simp [jsonStringify]
  | .num (.finite true 0 (_ + 1)), _ => by simp [jsonStringify]
  | .num (.finite true 0 0), h => by simp [Json.wireSafe] at h
  | .arr items, h => by
    have hi : Json.wireSafeItems items = true := by simpa [Json.wireSafe] using h
    simp [jsonStringify, stringifyItems_of_wireSafe items hi]
  | .obj fields, h => by
    have hf : Json.wireSafeFields fields = true := by simpa [Json.wireSafe] using h
    simp [jsonStringify, stringifyFields_of_wireSafe fields hf]
theorem stringifyItems_of_wireSafe :
    (vs : List Json) → Json.wireSafeItems vs = true → stringifyItems vs = vs
  | [], _ => rfl
  | v :: vs, h => by
    have h2 : v.wireSafe = true ∧ Json.wireSafeItems vs = true := by
      simpa [Json.wireSafeItems] using h
    simp [stringifyItems, jsonStringify_of_wireSafe v h2.1,
      stringifyItems_of_wireSafe vs h2.2]
theorem stringifyFields_of_wireSafe :
    (fs : List (String × Json)) → Json.wireSafeFields fs = true → stringifyFields fs = fs
  | [], _ => rfl
  | (k, v) :: rest, h => by
    have h2 : v.wireSafe = true ∧ Json.wireSafeFields rest = true := by
      simpa [Json.wireSafeFields] using h
    simp [stringifyFields, jsonStringify_of_wireSafe v h2.1,
      stringifyFields_of_wireSafe rest h2.2]
end

theorem qTruthy_eq_false_iff (v : Option QVal) :
    qTruthy v = false ↔ v = none ∨ v = some (.str "") := by
  cases v with
  | none => simp [qTruthy]
  | some w =>
    cases w with
    | str s => simp [qTruthy]
    | arr items => simp [qTruthy]

theorem qTruthy_str (s : String) (hs : s ≠ "") : qTruthy (some (.str s)) = true := by
  simp [qTruthy, hs]

theorem envTruthy_eq_false_iff (key : Option String) :
    envTruthy key = false ↔ key = none ∨ key = some "" := by
  cases key with
  | none => simp [envTruthy]
  | some k => simp [envTruthy]

theorem queryParam_eq_none_iff (q : Query) :
    queryParam q = none ↔
      qTruthy q.city = false ∧ (qTruthy q.lat = false ∨ qTruthy q.lon = false) := by
  unfold queryParam
  cases hc : qTruthy q.city <;> cases ha : qTruthy q.lat <;> cases ho : qTruthy q.lon <;> simp

theorem queryParam_city (q : Query) (h : qTruthy q.city = true) :
    queryParam q = some ("q=" ++ encodeURIComponent (qToString q.city)) := by
  simp [queryParam, h]

theorem queryParam_latlon (q : Query) (hc : qTruthy q.city = false)
    (ha : qTruthy q.lat = true) (ho : qTruthy q.lon = true) :
    queryParam q = some ("lat=" ++ qToString q.lat ++ "&lon=" ++ qToString q.lon) := by
  simp [queryParam, hc, ha, ho]

theorem handler_no_location (key : Option String) (net : String → NetResult) (q : Query)
    (h : queryParam q = none) :
    handler key net q = ⟨[], .sent ⟨400, missingLocationBody⟩⟩ := by
  simp only [handler, h]
  rfl

theorem handler_no_key (key : Option String) (net : String → NetResult) (q : Query)
    (frag : String) (h : queryParam q = some frag) (hk : envTruthy key = false) :
    handler key net q = ⟨[], .sent ⟨500, missingKeyBody⟩⟩ := by
  simp only [handler, h, hk]
  rfl

theorem hexDigit_unreserved : ∀ n, n < 16 → uriUnreserved (hexDigit n).toNat = true := by
  decide

theorem char_toNat_lt (c : Char) : c.toNat < 0x110000 := by
  have h := c.valid
  simp only [UInt32.isValidChar, Nat.isValidChar] at h
  show c.val.toNat < _
  omega

theorem utf8Bytes_lt (c : Nat) (hc : c < 0x110000) : ∀ b ∈ utf8Bytes c, b < 256 := by
  intro b hb
  unfold utf8Bytes at hb
  split_ifs at hb <;> simp at hb <;> omega

theorem percentByte_alphabet (b : Nat) (hb : b < 256) :
    ∀ ch ∈ percentByte b, uriUnreserved ch.toNat = true ∨ ch.toNat = 37 := by
  intro ch hch
  simp only [percentByte, List.mem_cons, List.mem_singleton, List.not_mem_nil, or_false] at hch
  rcases hch with h | h | h
  · right; rw [h]; rfl
  · left; rw [h]; exact hexDigit_unreserved _ (by omega)
  · left; rw [h]; exact hexDigit_unreserved _ (by omega)

theorem encodeURIComponent_alphabet (s : String) :
    ∀ ch ∈ (encodeURIComponent s).toList, uriUnreserved ch.toNat = true ∨ ch.toNat = 37 := by
  intro ch hch
  have hch2 : ch ∈ s.toList.flatMap encodeChar := hch
  rw [List.mem_flatMap] at hch2
  obtain ⟨c, -, hc⟩ := hch2
  unfold encodeChar at hc
  split_ifs at hc with hu
  · simp at hc; left; rw [hc]; exact hu
  · rw [List.mem_flatMap] at hc
    obtain ⟨b, hb, hch⟩ := hc
    exact percentByte_alphabet b (utf8Bytes_lt _ (char_toNat_lt c) b hb) ch hch

theorem encodeURIComponent_no_separator (s : String) :
    ∀ ch ∈ (encodeURIComponent s).toList, ch ≠ '&' ∧ ch ≠ '=' := by
  intro ch hch
  have h := encodeURIComponent_alphabet s ch hch
  constructor
  · rintro rfl
    revert h; decide
  · rintro rfl
    revert h; decide

theorem currentWeatherUrl_eq (K frag : String) :
    currentWeatherUrl (some K) frag =
      "https://api.openweathermap.org/data/2.5/weather?" ++ frag ++ "&appid=" ++ K ++
        "&units=metric" := by
  have h : OPENWEATHER_BASE_URL ++ "/" ++ "weather" ++ "?" =
      "https://api.openweathermap.org/data/2.5/weather?" := by decide
  simp only [currentWeatherUrl, envToString, h]

theorem forecastUrl_eq (K frag : String) :
    forecastUrl (some K) frag =
      "https://api.openweathermap.org/data/2.5/forecast?" ++ frag ++ "&appid=" ++ K ++
        "&units=metric" := by
  have h : OPENWEATHER_BASE_URL ++ "/forecast?" =
      "https://api.openweathermap.org/data/2.5/forecast?" := by decide
  simp only [forecastUrl, envToString, h]

theorem handler_valid (key : Option String) (net : String → NetResult) (q : Query)
    (frag : String) (h : queryParam q = some frag) (hk : envTruthy key = true) :
    handler key net q =
      match tryBlock key net frag with
      | (calls, .ok r) => ⟨calls, .sent r⟩
      | (calls, .error error) => ⟨calls, catchBlock error⟩ := by
  simp [handler, h, hk]

theorem tryBlock_current_fails (key : Option String) (net : String → NetResult)
    (frag : String) (e : AxiosError)
    (h : axiosGet net (currentWeatherUrl key frag) = .error e) :
    tryBlock key net frag = ([currentWeatherUrl key frag], .error e) := by
  simp [tryBlock, h]

theorem tryBlock_forecast_fails (key : Option String) (net : String → NetResult)
    (frag : String) (d : Json) (e : AxiosError)
    (h1 : axiosGet net (currentWeatherUrl key frag) = .ok d)
    (h2 : axiosGet net (forecastUrl key frag) = .error e) :
    tryBlock key net frag =
      ([currentWeatherUrl key frag, forecastUrl key frag], .error e) := by
  simp [tryBlock, h1, h2]

theorem tryBlock_both_succeed (key : Option String) (net : String → NetResult)
    (frag : String) (d1 d2 : Json)
    (h1 : axiosGet net (currentWeatherUrl key frag) = .ok d1)
    (h2 : axiosGet net (forecastUrl key frag) = .ok d2) :
    tryBlock key net frag =
      ([currentWeatherUrl key frag, forecastUrl key frag],
        .ok ⟨200, .obj [("current", jsonStringify d1),
          ("forecast", jsonStringify d2)]⟩) := by
  simp only [tryBlock, h1, h2]
  rfl

theorem handler_calls (key : Option String) (net : String → NetResult) (q : Query)
    (frag : String) (h : queryParam q = some frag) (hk : envTruthy key = true) :
    (handler key net q).calls =
      match axiosGet net (currentWeatherUrl key frag) with
      | .ok _ => [currentWeatherUrl key frag, forecastUrl key frag]
      | .error _ => [currentWeatherUrl key frag] := by
  rw [handler_valid key net q frag h hk]
  cases h1 : axiosGet net (currentWeatherUrl key frag) with
  | error e => rw [tryBlock_current_fails key net frag e h1]
  | ok d =>
    cases h2 : axiosGet net (forecastUrl key frag) with
    | error e => rw [tryBlock_forecast_fails key net frag d e h1 h2]
    | ok d2 => rw [tryBlock_both_succeed key net frag d d2 h1 h2]

theorem axiosGet_resolves (net : String → NetResult) (url : String) (s : Nat) (d : Json)
    (h : net url = .response s d) (hs : 200 ≤ s ∧ s < 300) :
    axiosGet net url = .ok d := by
  simp [axiosGet, h, validateStatus, hs.1, hs.2]

theorem axiosGet_rejects_status (net : String → NetResult) (url : String) (s : Nat)
    (d : Json) (h : net url = .response s d) (hs : ¬ (200 ≤ s ∧ s < 300)) :
    axiosGet net url = .error ⟨some (s, d), true⟩ := by
  have hv : validateStatus s = false := by
    simp only [validateStatus, Bool.and_eq_false_iff, decide_eq_false_iff_not]
    omega
  simp [axiosGet, h, hv]

theorem axiosGet_rejects_noResponse (net : String → NetResult) (url : String)
    (h : net url = .noResponse) : axiosGet net url = .error ⟨none, true⟩ := by
  simp [axiosGet, h]

theorem axiosGet_rejects_setupFailure (net : String → NetResult) (url : String)
    (h : net url = .setupFailure) : axiosGet net url = .error ⟨none, false⟩ := by
  simp [axiosGet, h]

/-- An error thrown by `axios.get` that carries a response carries a non-2xx status. -/
theorem axiosGet_error_status (net : String → NetResult) (url : String) (e : AxiosError)
    (s : Nat) (d : Json) (h : axiosGet net url = .error e) (hr : e.response = some (s, d)) :
    ¬ (200 ≤ s ∧ s < 300) ∧ net url = .response s d := by
  unfold axiosGet at h
  cases hn : net url with
  | response status data =>
    rw [hn] at h
    cases hv : validateStatus status with
    | true => simp [hv] at h
    | false =>
      simp only [hv, Bool.false_eq_true, if_false, Except.error.injEq] at h
      subst h
      simp only [Option.some.injEq, Prod.mk.injEq] at hr
      obtain ⟨rfl, rfl⟩ := hr
      simp only [validateStatus, Bool.and_eq_false_iff, decide_eq_false_iff_not] at hv
      exact ⟨by omega, rfl⟩
  | noResponse =>
    rw [hn] at h
    simp only [Except.error.injEq] at h
    subst h
    simp at hr
  | setupFailure =>
    rw [hn] at h
    simp only [Except.error.injEq] at h
    subst h
    simp at hr

theorem catchBlock_some (s : Nat) (data : Json) (rq : Bool) (m : Option Json)
    (hm : data.message = some m) :
    catchBlock ⟨some (s, data), rq⟩ =
      .sent ⟨s, .obj [("error",
          jsonStringify (jsOr m (.str "Error from external weather service"))),
        ("code", jsonStringify (.num (JsonNumber.ofNat s)))]⟩ := by
  simp only [catchBlock, hm]
  rfl

/-- The `error` text of line 65 after serialisation, spelled out by the shape of the
upstream body. -/
theorem surfaced_message (data : Json) (m : Option Json) :
    data.message = some m →
    jsonStringify (jsOr m (.str "Error from external weather service")) =
      (
          match data with
          | .obj fields =>
            match fields.lookup "message" with
            | some (.str t) =>
              if t = "" then .str "Error from external weather service" else .str t
            | some (.bool true) => .bool true
            | some (.num (.finite neg expo frac)) =>
              if expo = 0 ∧ frac = 0 then .str "Error from external weather service"
              else .num (.finite neg expo frac)
            | some (.num (.infinite _)) => .null
            | some (.arr items) => .arr (stringifyItems items)
            | some (.obj inner) => .obj (stringifyFields inner)
            | _ => .str "Error from external weather service"
          | _ => .str "Error from external weather service") := by
  intro hm
  cases data with
  | null => simp [Json.message] at hm
  | obj fields =>
    simp only [Json.message, Option.some.injEq] at hm
    subst hm
    show _ = (match fields.lookup "message" with
      | some (.str t) =>
        if t = "" then .str "Error from external weather service" else .str t
      | some (.bool true) => .bool true
      | some (.num (.finite neg expo frac)) =>
        if expo = 0 ∧ frac = 0 then .str "Error from external weather service"
        else .num (.finite neg expo frac)
      | some (.num (.infinite _)) => .null
      | some (.arr items) => .arr (stringifyItems items)
      | some (.obj inner) => .obj (stringifyFields inner)
      | _ => Json.str "Error from external weather service")
    generalize fields.lookup "message" = o
    cases o with
    | none => simp [jsOr, jsonStringify]
    | some v =>
      cases v with
      | null => simp [jsOr, jsonStringify, Json.truthy]
      | bool b => cases b <;> simp [jsOr, jsonStringify, Json.truthy]
      | str t => by_cases ht : t = "" <;> simp [jsOr, jsonStringify, Json.truthy, ht]
      | arr items => simp [jsOr, jsonStringify, Json.truthy]
      | obj inner => simp [jsOr, jsonStringify, Json.truthy]
      | num x =>
        cases x with
        | infinite neg => simp [jsOr, jsonStringify, Json.truthy]
        | finite neg expo frac =>
          cases neg <;> cases expo <;> cases frac <;>
            simp [jsOr, jsonStringify, Json.truthy]
  | bool b =>
    simp only [Json.message, Option.some.injEq] at hm
    subst hm
    simp [jsOr, jsonStringify]
  | num x =>
    simp only [Json.message, Option.some.injEq] at hm
    subst hm
    simp [jsOr, jsonStringify]
  | str t =>
    simp only [Json.message, Option.some.injEq] at hm
    subst hm
    simp [jsOr, jsonStringify]
  | arr items =>
    simp only [Json.message, Option.some.injEq] at hm
    subst hm
    simp [jsOr, jsonStringify]

theorem message_of_ne_null (data : Json) (h : data ≠ .null) :
    ∃ m, data.message = some m := by
  cases data with
  | null => exact absurd rfl h
  | obj fields => exact ⟨_, rfl⟩
  | bool b => exact ⟨_, rfl⟩
  | num x => exact ⟨_, rfl⟩
  | str t => exact ⟨_, rfl⟩
  | arr items => exact ⟨_, rfl⟩

theorem catchBlock_response (s : Nat) (data : Json) (rq : Bool) :
    data ≠ .null → s < 1000 → catchBlock ⟨some (s, data), rq⟩ =
      .sent ⟨s, .obj [("error",
          match data with
          | .obj fields =>
            match fields.lookup "message" with
            | some (.str t) =>
              if t = "" then .str "Error from external weather service" else .str t
            | some (.bool true) => .bool true
            | some (.num (.finite neg expo frac)) =>
              if expo = 0 ∧ frac = 0 then .str "Error from external weather service"
              else .num (.finite neg expo frac)
            | some (.num (.infinite _)) => .null
            | some (.arr items) => .arr (stringifyItems items)
            | some (.obj inner) => .obj (stringifyFields inner)
            | _ => .str "Error from external weather service"
          | _ => .str "Error from external weather service"),
        ("code", .num (JsonNumber.ofNat s))]⟩ := by
  intro hdata hs
  obtain ⟨m, hm⟩ := message_of_ne_null data hdata
  rw [catchBlock_some s data rq m hm, jsonStringify_ofNat s hs, surfaced_message data m hm]

theorem catchBlock_noResponse :
    catchBlock ⟨none, true⟩ =
      .sent ⟨500, .obj [("error", .str "No response from external weather service")]⟩ :=
  rfl

theorem catchBlock_setupFailure :
    catchBlock ⟨none, false⟩ =
      .sent ⟨500, .obj [("error", .str "Internal server error")]⟩ :=
  rfl

/-- Every response the catch block sends has one of three shapes. -/
theorem catchBlock_cases (e : AxiosError) (r : Response) (h : catchBlock e = .sent r) :
    (∃ s data m c, e.response = some (s, data) ∧
        r = ⟨s, .obj [("error", m), ("code", c)]⟩ ∧
        (s < 1000 → c = .num (JsonNumber.ofNat s))) ∨
      (e.response = none ∧ e.request = true ∧
        r = ⟨500, .obj [("error", .str "No response from external weather service")]⟩) ∨
      (e.response = none ∧ e.request = false ∧
        r = ⟨500, .obj [("error", .str "Internal server error")]⟩) := by
  obtain ⟨resp, req⟩ := e
  cases resp with
  | some sd =>
    obtain ⟨s, data⟩ := sd
    left
    cases hm : data.message with
    | none => simp [catchBlock, hm] at h
    | some m =>
      rw [catchBlock_some s data req m hm] at h
      simp only [Outcome.sent.injEq] at h
      exact ⟨s, data, _, _, rfl, h.symm, fun hs => jsonStringify_ofNat s hs⟩
  | none =>
    right
    cases req with
    | true =>
      left
      rw [catchBlock_noResponse] at h
      simp only [Outcome.sent.injEq] at h
      exact ⟨rfl, rfl, h.symm⟩
    | false =>
      right
      rw [catchBlock_setupFailure] at h
      simp only [Outcome.sent.injEq] at h
      exact ⟨rfl, rfl, h.symm⟩

theorem catchBlock_ne_validation (e : AxiosError) :
    catchBlock e ≠ .sent ⟨400, missingLocationBody⟩ ∧
      catchBlock e ≠ .sent ⟨500, missingKeyBody⟩ := by
  constructor
  · intro h
    rcases catchBlock_cases e _ h with ⟨s, data, m, c, -, hr, -⟩ | ⟨-, -, hr⟩ | ⟨-, -, hr⟩ <;>
      simp [missingLocationBody] at hr
  · intro h
    rcases catchBlock_cases e _ h with ⟨s, data, m, c, -, hr, -⟩ | ⟨-, -, hr⟩ | ⟨-, -, hr⟩ <;>
      simp [missingKeyBody] at hr

/-- A response sent by the catch block has an `error` field and neither a `current` nor
a `forecast` field. -/
theorem catchBlock_fields (e : AxiosError) (r : Response) (h : catchBlock e = .sent r) :
    r.body.hasField "error" = true ∧ r.body.hasField "current" = false ∧
      r.body.hasField "forecast" = false := by
  rcases catchBlock_cases e r h with ⟨s, data, m, c, -, rfl, -⟩ | ⟨-, -, rfl⟩ | ⟨-, -, rfl⟩ <;>
    simp [Json.hasField]

/-- The catch block never answers 200 to an error thrown by `axios.get`. -/
theorem catchBlock_status_ne_200 (net : String → NetResult) (url : String)
    (e : AxiosError) (r : Response) (he : axiosGet net url = .error e)
    (h : catchBlock e = .sent r) : r.status ≠ 200 := by
  rcases catchBlock_cases e r h with ⟨s, data, m, c, hr, rfl, -⟩ | ⟨-, -, rfl⟩ | ⟨-, -, rfl⟩
  · have hs := (axiosGet_error_status net url e s data he hr).1
    show s ≠ 200
    omega
  · decide
  · decide

/-- The error thrown by the try block comes from one of its two calls. -/
theorem tryBlock_error_source (key : Option String) (net : String → NetResult)
    (frag : String) (e : AxiosError) (h : (tryBlock key net frag).2 = .error e) :
    axiosGet net (currentWeatherUrl key frag) = .error e ∨
      ((∃ C, axiosGet net (currentWeatherUrl key frag) = .ok C) ∧
        axiosGet net (forecastUrl key frag) = .error e) := by
  cases h1 : axiosGet net (currentWeatherUrl key frag) with
  | error e1 =>
    rw [tryBlock_current_fails key net frag e1 h1] at h
    simp only [Except.error.injEq] at h
    left; rw [h]
  | ok C =>
    cases h2 : axiosGet net (forecastUrl key frag) with
    | error e2 =>
      rw [tryBlock_forecast_fails key net frag C e2 h1 h2] at h
      simp only [Except.error.injEq] at h
      right; exact ⟨⟨C, rfl⟩, by rw [h]⟩
    | ok F =>
      rw [tryBlock_both_succeed key net frag C F h1 h2] at h
      simp at h

/-- The four ways the handler can send a response. -/
theorem handler_sent_cases (key : Option String) (net : String → NetResult) (q : Query)
    (r : Response) (h : (handler key net q).outcome = .sent r) :
    (queryParam q = none ∧ r = ⟨400, missingLocationBody⟩) ∨
      (∃ frag, queryParam q = some frag ∧ envTruthy key = false ∧
        r = ⟨500, missingKeyBody⟩) ∨
      (∃ frag C F, queryParam q = some frag ∧ envTruthy key = true ∧
        axiosGet net (currentWeatherUrl key frag) = .ok C ∧
        axiosGet net (forecastUrl key frag) = .ok F ∧
        r = ⟨200, .obj [("current", jsonStringify C), ("forecast", jsonStringify F)]⟩) ∨
      (∃ frag e, queryParam q = some frag ∧ envTruthy key = true ∧
        (tryBlock key net frag).2 = .error e ∧ catchBlock e = .sent r) := by
  cases hq : queryParam q with
  | none =>
    rw [handler_no_location key net q hq] at h
    simp only [Outcome.sent.injEq] at h
    exact Or.inl ⟨rfl, h.symm⟩
  | some frag =>
    cases hk : envTruthy key with
    | false =>
      rw [handler_no_key key net q frag hq hk] at h
      simp only [Outcome.sent.injEq] at h
      exact Or.inr (Or.inl ⟨frag, rfl, rfl, h.symm⟩)
    | true =>
      rw [handler_valid key net q frag hq hk] at h
      cases h1 : axiosGet net (currentWeatherUrl key frag) with
      | error e =>
        have ht := tryBlock_current_fails key net frag e h1
        rw [ht] at h
        exact Or.inr (Or.inr (Or.inr ⟨frag, e, rfl, rfl, by rw [ht], h⟩))
      | ok C =>
        cases h2 : axiosGet net (forecastUrl key frag) with
        | error e =>
          have ht := tryBlock_forecast_fails key net frag C e h1 h2
          rw [ht] at h
          exact Or.inr (Or.inr (Or.inr ⟨frag, e, rfl, rfl, by rw [ht], h⟩))
        | ok F =>
          rw [tryBlock_both_succeed key net frag C F h1 h2] at h
          simp only [Outcome.sent.injEq] at h
          exact Or.inr (Or.inr (Or.inl ⟨frag, C, F, rfl, rfl, h1, h2, h.symm⟩))

theorem handler_outcome_error (key : Option String) (net : String → NetResult)
    (q : Query) (frag : String) (e : AxiosError) (hq : queryParam q = some frag)
    (hk : envTruthy key = true) (ht : (tryBlock key net frag).2 = .error e) :
    (handler key net q).outcome = catchBlock e := by
  rw [handler_valid key net q frag hq hk]
  rcases hpair : tryBlock key net frag with ⟨calls, res⟩
  rw [hpair] at ht
  simp only at ht
  subst ht
  rfl

/-! ## The claims -/

/-- C1: a request whose `city` is absent or empty and in which at least one of `lat`,
`lon` is absent or empty is answered with status 400 and the body made of the single
field `error` holding "City or latitude/longitude parameters are required", whatever
the API key and whatever the upstream would answer. -/
theorem missing_location_bad_request (key : Option String) (net : String → NetResult)
    (q : Query)
    (hcity : q.city = none ∨ q.city = some (.str ""))
    (hll : (q.lat = none ∨ q.lat = some (.str "")) ∨
      (q.lon = none ∨ q.lon = some (.str ""))) :
    (handler key net q).outcome =
      .sent ⟨400, .obj [("error",
        .str "City or latitude/longitude parameters are required")]⟩ := by
  have hq : queryParam q = none := by
    rw [queryParam_eq_none_iff]
    exact ⟨(qTruthy_eq_false_iff _).2 hcity,
      hll.imp (qTruthy_eq_false_iff _).2 (qTruthy_eq_false_iff _).2⟩
  rw [handler_no_location key net q hq]
  rfl

theorem missing_location_bad_request_witness :
    (handler (some "k3y") (fun _ => .response 200 (.obj []))
        ⟨some (.str ""), some (.str "48.85"), none⟩).outcome =
      .sent ⟨400, .obj [("error",
        .str "City or latitude/longitude parameters are required")]⟩ :=
  missing_location_bad_request (some "k3y") (fun _ => .response 200 (.obj []))
    ⟨some (.str ""), some (.str "48.85"), none⟩ (Or.inr rfl) (Or.inr (Or.inl rfl))

/-- C2 fails as stated: with no API key and no location in the request, the handler
answers 400 with the missing-location body, not 500 with the configuration error. -/
theorem missing_key_without_location_is_400 :
    (handler none (fun _ => .noResponse) ⟨none, none, none⟩).outcome =
        .sent ⟨400, .obj [("error",
          .str "City or latitude/longitude parameters are required")]⟩ ∧
      (handler none (fun _ => .noResponse) ⟨none, none, none⟩).outcome ≠
        .sent ⟨500, .obj [("error",
          .str "Server configuration error: API Key missing")]⟩ := by
  have h : (handler none (fun _ => .noResponse) ⟨none, none, none⟩).outcome =
      .sent ⟨400, .obj [("error",
        .str "City or latitude/longitude parameters are required")]⟩ := rfl
  refine ⟨h, ?_⟩
  rw [h]
  simp

/-- C2, amended: when the API key is absent, every request that carries a location
(a truthy `city`, or truthy `lat` and `lon`) is answered with status 500 and the body
made of the single field `error` holding "Server configuration error: API Key
missing", whatever the upstream would answer and without any outbound call. -/
theorem missing_key_server_error (net : String → NetResult) (q : Query)
    (hloc : qTruthy q.city = true ∨ (qTruthy q.lat = true ∧ qTruthy q.lon = true)) :
    handler none net q =
      ⟨[], .sent ⟨500, .obj [("error",
        .str "Server configuration error: API Key missing")]⟩⟩ := by
  have hq : ∃ frag, queryParam q = some frag := by
    cases hq : queryParam q with
    | some frag => exact ⟨frag, rfl⟩
    | none =>
      rw [queryParam_eq_none_iff] at hq
      rcases hloc with hc | ⟨ha, ho⟩
      · simp [hq.1] at hc
      · rcases hq.2 with h | h
        · simp [h] at ha
        · simp [h] at ho
  obtain ⟨frag, hfrag⟩ := hq
  rw [handler_no_key none net q frag hfrag rfl]
  rfl

theorem missing_key_server_error_witness :
    handler none (fun _ => .response 200 (.obj [])) ⟨none, some (.str "0"), some (.str "0")⟩ =
      ⟨[], .sent ⟨500, .obj [("error",
        .str "Server configuration error: API Key missing")]⟩⟩ :=
  missing_key_server_error (fun _ => .response 200 (.obj []))
    ⟨none, some (.str "0"), some (.str "0")⟩ (Or.inr ⟨by decide, by decide⟩)

/-- C3: when `city` is a non-empty string, `lat` and `lon` are ignored. The location
fragment is `q=` followed by the URL-encoded city, which holds neither `&` nor `=`
(so no `lat` or `lon` parameter), and two requests with the same city and any `lat`,
`lon` lead to the same outbound calls and the same response under the same upstream
behaviour and API key. -/
theorem city_takes_precedence (key : Option String) (net : String → NetResult)
    (c : String) (hc : c ≠ "") (lat lon lat2 lon2 : Option QVal) :
    queryParam ⟨some (.str c), lat, lon⟩ = some ("q=" ++ encodeURIComponent c) ∧
      (∀ ch ∈ (encodeURIComponent c).toList, ch ≠ '&' ∧ ch ≠ '=') ∧
      handler key net ⟨some (.str c), lat, lon⟩ =
        handler key net ⟨some (.str c), lat2, lon2⟩ := by
  have h1 : ∀ a o : Option QVal,
      queryParam ⟨some (.str c), a, o⟩ = some ("q=" ++ encodeURIComponent c) := by
    intro a o
    rw [queryParam_city _ (qTruthy_str c hc)]
    rfl
  refine ⟨h1 lat lon, encodeURIComponent_no_separator c, ?_⟩
  simp only [handler, h1]

theorem city_takes_precedence_witness :
    queryParam ⟨some (.str "New York"), some (.str "1"), some (.str "2")⟩ =
        some ("q=" ++ encodeURIComponent "New York") ∧
      (∀ ch ∈ (encodeURIComponent "New York").toList, ch ≠ '&' ∧ ch ≠ '=') ∧
      handler (some "k3y") (fun _ => .noResponse)
          ⟨some (.str "New York"), some (.str "1"), some (.str "2")⟩ =
        handler (some "k3y") (fun _ => .noResponse) ⟨some (.str "New York"), none, none⟩ :=
  city_takes_precedence (some "k3y") (fun _ => .noResponse) "New York" (by decide)
    (some (.str "1")) (some (.str "2")) none none

/-- C4 fails as stated: a number beyond the double range in an upstream body (such as
`1e400`, which the HTTP client decodes to an infinity) does not come back unchanged; the
handler sends `null` in its place. -/
theorem infinite_number_sent_as_null :
    (handler (some "k3y")
        (fun _ => .response 200 (.obj [("v", .num (JsonNumber.ofDecimal false 1 400))]))
        ⟨some (.str "Oslo"), none, none⟩).outcome =
        .sent ⟨200, .obj [("current", .obj [("v", .null)]),
          ("forecast", .obj [("v", .null)])]⟩ ∧
      (handler (some "k3y")
        (fun _ => .response 200 (.obj [("v", .num (JsonNumber.ofDecimal false 1 400))]))
        ⟨some (.str "Oslo"), none, none⟩).outcome ≠
        .sent ⟨200, .obj [("current", .obj [("v", .num (JsonNumber.ofDecimal false 1 400))]),
          ("forecast", .obj [("v", .num (JsonNumber.ofDecimal false 1 400))])]⟩ := by
  have hd : JsonNumber.ofDecimal false 1 400 = .infinite false := by
    set_option exponentiation.threshold 4000 in decide
  rw [hd]
  have h : (handler (some "k3y")
        (fun _ => .response 200 (.obj [("v", .num (.infinite false))]))
        ⟨some (.str "Oslo"), none, none⟩).outcome =
        .sent ⟨200, .obj [("current", .obj [("v", .null)]),
          ("forecast", .obj [("v", .null)])]⟩ := rfl
  refine ⟨h, ?_⟩
  rw [h]
  simp

/-- C4, amended: with a valid location and an API key, when both upstream calls are
answered with a 2xx status and decoded bodies `C` and `F`, the handler responds with
status 200 and the body made of exactly the two fields `current` and `forecast`,
holding `C` and `F` as `JSON.stringify` writes them: every member is kept, and every
value is unchanged except that an infinity is sent as `null` and negative zero as `0`.
When `C` and `F` hold no infinity and no negative zero they are sent unchanged. -/
theorem success_bundle (K : String) (net : String → NetResult) (q : Query)
    (frag : String) (s1 s2 : Nat) (C F : Json) (hK : K ≠ "")
    (hq : queryParam q = some frag)
    (h1 : net (currentWeatherUrl (some K) frag) = .response s1 C)
    (hs1 : 200 ≤ s1 ∧ s1 < 300)
    (h2 : net (forecastUrl (some K) frag) = .response s2 F)
    (hs2 : 200 ≤ s2 ∧ s2 < 300) :
    (handler (some K) net q).outcome =
        .sent ⟨200, .obj [("current", jsonStringify C), ("forecast", jsonStringify F)]⟩ ∧
      (C.wireSafe = true → F.wireSafe = true →
        (handler (some K) net q).outcome =
          .sent ⟨200, .obj [("current", C), ("forecast", F)]⟩) := by
  have hk : envTruthy (some K) = true := by simp [envTruthy, hK]
  have h : (handler (some K) net q).outcome =
      .sent ⟨200, .obj [("current", jsonStringify C), ("forecast", jsonStringify F)]⟩ := by
    rw [handler_valid (some K) net q frag hq hk,
      tryBlock_both_succeed (some K) net frag C F (axiosGet_resolves net _ s1 C h1 hs1)
        (axiosGet_resolves net _ s2 F h2 hs2)]
  refine ⟨h, ?_⟩
  intro hC hF
  rw [h, jsonStringify_of_wireSafe C hC, jsonStringify_of_wireSafe F hF]

theorem success_bundle_witness :
    (handler (some "k3y")
        (fun url => if url = currentWeatherUrl (some "k3y") "q=Oslo" then
          .response 200 (.obj [("name", .str "Oslo"),
            ("main", .obj [("temp", .num (JsonNumber.ofDecimal true 45 (-1)))])])
          else .response 200 (.obj [("cnt", .num (JsonNumber.ofNat 40)), ("list", .arr [])]))
        ⟨some (.str "Oslo"), none, none⟩).outcome =
      .sent ⟨200, .obj [("current", .obj [("name", .str "Oslo"),
          ("main", .obj [("temp", .num (JsonNumber.ofDecimal true 45 (-1)))])]),
        ("forecast", .obj [("cnt", .num (JsonNumber.ofNat 40)), ("list", .arr [])])]⟩ :=
  (success_bundle "k3y"
    (fun url => if url = currentWeatherUrl (some "k3y") "q=Oslo" then
      .response 200 (.obj [("name", .str "Oslo"),
        ("main", .obj [("temp", .num (JsonNumber.ofDecimal true 45 (-1)))])])
      else .response 200 (.obj [("cnt", .num (JsonNumber.ofNat 40)), ("list", .arr [])]))
    ⟨some (.str "Oslo"), none, none⟩ "q=Oslo" 200 200
    (.obj [("name", .str "Oslo"),
      ("main", .obj [("temp", .num (JsonNumber.ofDecimal true 45 (-1)))])])
    (.obj [("cnt", .num (JsonNumber.ofNat 40)), ("list", .arr [])])
    (by decide) (by decide) (by simp) (by decide) (by simp [currentWeatherUrl_eq, forecastUrl_eq])
    (by decide)).2 (by decide) (by decide)

/-- C5 fails as stated: an upstream 404 whose body has a `message` field holding the
empty string is answered with the generic text in `error`, not with the field. -/
theorem empty_message_gets_generic_text :
    (handler (some "k3y") (fun _ => .response 404 (.obj [("message", .str "")]))
        ⟨some (.str "Paris"), none, none⟩).outcome =
        .sent ⟨404, .obj [("error", .str "Error from external weather service"),
          ("code", .num (JsonNumber.ofNat 404))]⟩ ∧
      (handler (some "k3y") (fun _ => .response 404 (.obj [("message", .str "")]))
        ⟨some (.str "Paris"), none, none⟩).outcome ≠
        .sent ⟨404, .obj [("error", .str ""), ("code", .num (JsonNumber.ofNat 404))]⟩ := by
  have h : (handler (some "k3y") (fun _ => .response 404 (.obj [("message", .str "")]))
        ⟨some (.str "Paris"), none, none⟩).outcome =
        .sent ⟨404, .obj [("error", .str "Error from external weather service"),
          ("code", .num (JsonNumber.ofNat 404))]⟩ := by
    rfl
  refine ⟨h, ?_⟩
  rw [h]
  simp

/-- C5, amended: when the upstream answers an outbound call (the current-weather call,
or the forecast call after a resolved current-weather call) with a non-2xx status `s`
and a body other than JSON `null`, the handler responds with status `s` and the body
made of the fields `error` and `code`, where `code` is the number `s`. The field `error`
is the `message` field of the upstream body, as `JSON.stringify` writes it, when the
body is an object whose `message` is a non-empty string, `true`, a number other than
zero (an infinity being written `null`), an array or an object; it is
"Error from external weather service" when the body is not an object, when it has no
`message`, and when `message` is the empty string, `null`, `false` or a zero. -/
theorem upstream_status_surfaced (K : String) (net : String → NetResult) (q : Query)
    (frag : String) (s : Nat) (data : Json) (hK : K ≠ "")
    (hq : queryParam q = some frag) (hs : ¬ (200 ≤ s ∧ s < 300)) (hs3 : s < 1000) :
    data ≠ .null →
    (net (currentWeatherUrl (some K) frag) = .response s data ∨
      ((∃ s1 C, (200 ≤ s1 ∧ s1 < 300) ∧
          net (currentWeatherUrl (some K) frag) = .response s1 C) ∧
        net (forecastUrl (some K) frag) = .response s data)) →
    (handler (some K) net q).outcome =
      .sent ⟨s, .obj [("error",
          match data with
          | .obj fields =>
            match fields.lookup "message" with
            | some (.str t) =>
              if t = "" then .str "Error from external weather service" else .str t
            | some (.bool true) => .bool true
            | some (.num (.finite neg expo frac)) =>
              if expo = 0 ∧ frac = 0 then .str "Error from external weather service"
              else .num (.finite neg expo frac)
            | some (.num (.infinite _)) => .null
            | some (.arr items) => .arr (stringifyItems items)
            | some (.obj inner) => .obj (stringifyFields inner)
            | _ => .str "Error from external weather service"
          | _ => .str "Error from external weather service"),
        ("code", .num (JsonNumber.ofNat s))]⟩ := by
  intro hdata hcall
  have hk : envTruthy (some K) = true := by simp [envTruthy, hK]
  have hcatch := catchBlock_response s data true hdata hs3
  rw [handler_valid (some K) net q frag hq hk]
  rcases hcall with h | ⟨⟨s1, C, hs1, h1⟩, h2⟩
  · rw [tryBlock_current_fails (some K) net frag _ (axiosGet_rejects_status net _ s data h hs)]
    exact hcatch
  · rw [tryBlock_forecast_fails (some K) net frag C _ (axiosGet_resolves net _ s1 C h1 hs1)
      (axiosGet_rejects_status net _ s data h2 hs)]
    exact hcatch

theorem upstream_status_surfaced_witness :
    (handler (some "k3y")
        (fun _ => .response 404 (.obj [("message", .str "city not found")]))
        ⟨some (.str "Atlantis"), none, none⟩).outcome =
      .sent ⟨404, .obj [("error", .str "city not found"),
        ("code", .num (JsonNumber.ofNat 404))]⟩ :=
  upstream_status_surfaced "k3y"
    (fun _ => .response 404 (.obj [("message", .str "city not found")]))
    ⟨some (.str "Atlantis"), none, none⟩ "q=Atlantis" 404
    (.obj [("message", .str "city not found")]) (by decide) (by decide) (by decide)
    (by decide) (by simp) (Or.inl rfl)

/-- C6: with a valid location and an API key, when the current-weather call, or the
forecast call after a resolved current-weather call, receives no response, the handler
responds with status 500 and the body made of the single field `error` holding
"No response from external weather service". -/
theorem no_response_server_error (K : String) (net : String → NetResult) (q : Query)
    (frag : String) (hK : K ≠ "") (hq : queryParam q = some frag)
    (hcall : net (currentWeatherUrl (some K) frag) = .noResponse ∨
      ((∃ s1 C, (200 ≤ s1 ∧ s1 < 300) ∧
          net (currentWeatherUrl (some K) frag) = .response s1 C) ∧
        net (forecastUrl (some K) frag) = .noResponse)) :
    (handler (some K) net q).outcome =
      .sent ⟨500, .obj [("error", .str "No response from external weather service")]⟩ := by
  have hk : envTruthy (some K) = true := by simp [envTruthy, hK]
  rw [handler_valid (some K) net q frag hq hk]
  rcases hcall with h | ⟨⟨s1, C, hs1, h1⟩, h2⟩
  · rw [tryBlock_current_fails (some K) net frag _ (axiosGet_rejects_noResponse net _ h)]
    rfl
  · rw [tryBlock_forecast_fails (some K) net frag C _ (axiosGet_resolves net _ s1 C h1 hs1)
      (axiosGet_rejects_noResponse net _ h2)]
    rfl

theorem no_response_server_error_witness :
    (handler (some "k3y")
        (fun url => if url = currentWeatherUrl (some "k3y") "q=Oslo" then
          .response 200 (.obj [("name", .str "Oslo")]) else .noResponse)
        ⟨some (.str "Oslo"), none, none⟩).outcome =
      .sent ⟨500, .obj [("error", .str "No response from external weather service")]⟩ :=
  no_response_server_error "k3y"
    (fun url => if url = currentWeatherUrl (some "k3y") "q=Oslo" then
      .response 200 (.obj [("name", .str "Oslo")]) else .noResponse)
    ⟨some (.str "Oslo"), none, none⟩ "q=Oslo" (by decide) (by decide)
    (Or.inr ⟨⟨200, .obj [("name", .str "Oslo")], by decide, by simp⟩,
      by simp [currentWeatherUrl_eq, forecastUrl_eq]⟩)

/-- C7: both calls must succeed or the whole request fails, and the first failing
call decides. With a valid location and an API key, the response has status 200 exactly
when both calls resolve; when the current-weather call fails the run is that single
call followed by the error mapping of its failure, so it is the same whatever the
forecast endpoint would answer; when the current-weather call resolves and the forecast
call fails the response is the error mapping of the forecast failure and has no
`current` field. For every request, a response body with a `current` field has a
`forecast` field. -/
theorem both_or_nothing (key : Option String) (net : String → NetResult) (q : Query) :
    (∀ frag, queryParam q = some frag → envTruthy key = true →
      ((∃ r, (handler key net q).outcome = .sent r ∧ r.status = 200) ↔
          ∃ C F, axiosGet net (currentWeatherUrl key frag) = .ok C ∧
            axiosGet net (forecastUrl key frag) = .ok F) ∧
        (∀ e, axiosGet net (currentWeatherUrl key frag) = .error e →
          handler key net q = ⟨[currentWeatherUrl key frag], catchBlock e⟩ ∧
            ∀ net2 : String → NetResult,
              net2 (currentWeatherUrl key frag) = net (currentWeatherUrl key frag) →
              handler key net2 q = handler key net q) ∧
        (∀ C e, axiosGet net (currentWeatherUrl key frag) = .ok C →
          axiosGet net (forecastUrl key frag) = .error e →
          (handler key net q).outcome = catchBlock e ∧
            ∀ r, catchBlock e = .sent r → r.body.hasField "current" = false)) ∧
      (∀ r, (handler key net q).outcome = .sent r →
        r.body.hasField "current" = true → r.body.hasField "forecast" = true) := by
  refine ⟨?_, ?_⟩
  · intro frag hq hk
    refine ⟨⟨?_, ?_⟩, ?_, ?_⟩
    · rintro ⟨r, hr, hst⟩
      rcases handler_sent_cases key net q r hr with
        ⟨hn, -⟩ | ⟨frag2, -, hk2, -⟩ | ⟨frag2, C, F, hq2, -, h1, h2, -⟩ |
        ⟨frag2, e, hq2, -, ht, hc⟩
      · rw [hn] at hq
        exact absurd hq (by simp)
      · rw [hk2] at hk
        exact absurd hk (by simp)
      · rw [hq] at hq2
        simp only [Option.some.injEq] at hq2
        subst hq2
        exact ⟨C, F, h1, h2⟩
      · rcases tryBlock_error_source key net frag2 e ht with he | ⟨-, he⟩
        · exact absurd hst (catchBlock_status_ne_200 net _ e r he hc)
        · exact absurd hst (catchBlock_status_ne_200 net _ e r he hc)
    · rintro ⟨C, F, h1, h2⟩
      refine ⟨⟨200, .obj [("current", jsonStringify C), ("forecast", jsonStringify F)]⟩,
        ?_, rfl⟩
      rw [handler_valid key net q frag hq hk, tryBlock_both_succeed key net frag C F h1 h2]
    · intro e he
      have hrun : handler key net q = ⟨[currentWeatherUrl key frag], catchBlock e⟩ := by
        rw [handler_valid key net q frag hq hk, tryBlock_current_fails key net frag e he]
      refine ⟨hrun, ?_⟩
      intro net2 hnet
      have he2 : axiosGet net2 (currentWeatherUrl key frag) = .error e := by
        rw [← he]
        simp only [axiosGet, hnet]
      rw [hrun, handler_valid key net2 q frag hq hk,
        tryBlock_current_fails key net2 frag e he2]
    · intro C e h1 h2
      refine ⟨?_, ?_⟩
      · rw [handler_valid key net q frag hq hk,
          tryBlock_forecast_fails key net frag C e h1 h2]
      · intro r hr
        exact (catchBlock_fields e r hr).2.1
  · intro r hr hcur
    rcases handler_sent_cases key net q r hr with
      ⟨-, rfl⟩ | ⟨frag2, -, -, rfl⟩ | ⟨frag2, C, F, -, -, -, -, rfl⟩ | ⟨frag2, e, -, -, -, hc⟩
    · simp [missingLocationBody, Json.hasField] at hcur
    · simp [missingKeyBody, Json.hasField] at hcur
    · simp [Json.hasField]
    · rw [(catchBlock_fields e r hc).2.1] at hcur
      exact absurd hcur (by simp)

theorem both_or_nothing_witness :
    ∃ r, (handler (some "k3y") (fun _ => .response 200 (.obj []))
        ⟨some (.str "Oslo"), none, none⟩).outcome = .sent r ∧ r.status = 200 :=
  ((both_or_nothing (some "k3y") (fun _ => .response 200 (.obj []))
    ⟨some (.str "Oslo"), none, none⟩).1 "q=Oslo" (by decide) (by decide)).1.2
    ⟨.obj [], .obj [], rfl, rfl⟩

/-- C8: with an API key `K` and a valid location, the current-weather URL is the base
URL followed by `/weather?`, the fragment, `&appid=K&units=metric`, and the forecast
URL is the same with `/forecast?`. The fragment is `q=` and the URL-encoded city when
a city is given, and `lat=a&lon=b` with the values as received when only `lat` and
`lon` are given. The handler requests the first URL, then, once the first call has
resolved, the second; the two differ only in the path segment. -/
theorem outbound_urls (K : String) (net : String → NetResult) (q : Query)
    (frag : String) (hK : K ≠ "")
    (hloc : (∃ c, c ≠ "" ∧ q.city = some (.str c) ∧ frag = "q=" ++ encodeURIComponent c) ∨
      (∃ a b, a ≠ "" ∧ b ≠ "" ∧ (q.city = none ∨ q.city = some (.str "")) ∧
        q.lat = some (.str a) ∧ q.lon = some (.str b) ∧
        frag = "lat=" ++ a ++ "&lon=" ++ b)) :
    (handler (some K) net q).calls =
        (match axiosGet net ("https://api.openweathermap.org/data/2.5/weather?" ++ frag ++
            "&appid=" ++ K ++ "&units=metric") with
          | .ok _ =>
            ["https://api.openweathermap.org/data/2.5/weather?" ++ frag ++
                "&appid=" ++ K ++ "&units=metric",
              "https://api.openweathermap.org/data/2.5/forecast?" ++ frag ++
                "&appid=" ++ K ++ "&units=metric"]
          | .error _ =>
            ["https://api.openweathermap.org/data/2.5/weather?" ++ frag ++
                "&appid=" ++ K ++ "&units=metric"]) ∧
      currentWeatherUrl (some K) frag =
        "https://api.openweathermap.org/data/2.5/" ++ "weather" ++
          ("?" ++ frag ++ "&appid=" ++ K ++ "&units=metric") ∧
      forecastUrl (some K) frag =
        "https://api.openweathermap.org/data/2.5/" ++ "forecast" ++
          ("?" ++ frag ++ "&appid=" ++ K ++ "&units=metric") := by
  have hq : queryParam q = some frag := by
    rcases hloc with ⟨c, hc, hcity, rfl⟩ | ⟨a, b, ha, hb, hcity, hlat, hlon, rfl⟩
    · rw [queryParam_city q (by rw [hcity]; exact qTruthy_str c hc), hcity]
      rfl
    · rw [queryParam_latlon q ((qTruthy_eq_false_iff _).2 hcity)
        (by rw [hlat]; exact qTruthy_str a ha) (by rw [hlon]; exact qTruthy_str b hb),
        hlat, hlon]
      rfl
  have hk : envTruthy (some K) = true := by simp [envTruthy, hK]
  refine ⟨?_, ?_, ?_⟩
  · rw [handler_calls (some K) net q frag hq hk, currentWeatherUrl_eq, forecastUrl_eq]
  · rw [currentWeatherUrl_eq]
    have h : "https://api.openweathermap.org/data/2.5/weather?" =
        "https://api.openweathermap.org/data/2.5/" ++ "weather" ++ "?" := by decide
    rw [h]
    simp only [String.append_assoc]
  · rw [forecastUrl_eq]
    have h : "https://api.openweathermap.org/data/2.5/forecast?" =
        "https://api.openweathermap.org/data/2.5/" ++ "forecast" ++ "?" := by decide
    rw [h]
    simp only [String.append_assoc]

theorem outbound_urls_witness :
    (handler (some "k3y") (fun _ => .response 200 (.obj []))
        ⟨none, some (.str "0"), some (.str "0")⟩).calls =
      ["https://api.openweathermap.org/data/2.5/weather?lat=0&lon=0&appid=k3y&units=metric",
        "https://api.openweathermap.org/data/2.5/forecast?lat=0&lon=0&appid=k3y&units=metric"] :=
  (outbound_urls "k3y" (fun _ => .response 200 (.obj []))
    ⟨none, some (.str "0"), some (.str "0")⟩ "lat=0&lon=0" (by decide)
    (Or.inr ⟨"0", "0", by decide, by decide, Or.inl rfl, rfl, rfl, by decide⟩)).1

/-- C9: validation failures make no upstream call. A run that ends with the
missing-location response (400) or with the configuration-error response (500) has
issued no outbound request, and a run that issued one has passed both the location
check and the API-key check. -/
theorem validation_failures_make_no_call (key : Option String) (net : String → NetResult)
    (q : Query) :
    ((handler key net q).outcome = .sent ⟨400, missingLocationBody⟩ →
        (handler key net q).calls = []) ∧
      ((handler key net q).outcome = .sent ⟨500, missingKeyBody⟩ →
        (handler key net q).calls = []) ∧
      (queryParam q = none → (handler key net q).calls = []) ∧
      (envTruthy key = false → (handler key net q).calls = []) ∧
      ((handler key net q).calls ≠ [] →
        queryParam q ≠ none ∧ envTruthy key = true) := by
  cases hq : queryParam q with
  | none => simp [handler, hq]
  | some frag =>
    cases hk : envTruthy key with
    | false => simp [handler, hq, hk, missingLocationBody, missingKeyBody]
    | true =>
      rw [handler_valid key net q frag hq hk]
      cases h1 : axiosGet net (currentWeatherUrl key frag) with
      | error e =>
        have hne := catchBlock_ne_validation e
        simp [tryBlock_current_fails key net frag e h1, hne.1, hne.2]
      | ok d1 =>
        cases h2 : axiosGet net (forecastUrl key frag) with
        | error e =>
          have hne := catchBlock_ne_validation e
          simp [tryBlock_forecast_fails key net frag d1 e h1 h2, hne.1, hne.2]
        | ok d2 => simp [tryBlock_both_succeed key net frag d1 d2 h1 h2]

theorem validation_failures_make_no_call_witness :
    (handler none (fun _ => .response 200 (.obj [])) ⟨none, none, some (.str "10.7")⟩).calls =
      [] :=
  (validation_failures_make_no_call none (fun _ => .response 200 (.obj []))
    ⟨none, none, some (.str "10.7")⟩).1 rfl

/-- C10 fails on the code: when the upstream answers the current-weather call with an
error status and the JSON body `null`, reading `message` of `null` at line 65 throws
inside the catch block. The handler has made one outbound call and sends no response:
neither the object with `error` and `code` described for an upstream status error, nor
the 500 "Internal server error" described for any other local failure. -/
theorem null_error_body_sends_no_response :
    handler (some "k3y") (fun _ => .response 502 .null) ⟨some (.str "Oslo"), none, none⟩ =
        ⟨["https://api.openweathermap.org/data/2.5/weather?q=Oslo&appid=k3y&units=metric"],
          .uncaught⟩ ∧
      ¬ ∃ r, (handler (some "k3y") (fun _ => .response 502 .null)
        ⟨some (.str "Oslo"), none, none⟩).outcome = .sent r := by
  have h : handler (some "k3y") (fun _ => .response 502 .null)
      ⟨some (.str "Oslo"), none, none⟩ =
      ⟨["https://api.openweathermap.org/data/2.5/weather?q=Oslo&appid=k3y&units=metric"],
        .uncaught⟩ := by
    rfl
  refine ⟨h, ?_⟩
  rw [h]
  simp

/-! ## What the handler sends on every other failure -/

/-- Every failure other than an upstream error with a `null` body is answered. A
request without location gets the 400 missing-location response; a request with a
location and no API key gets the 500 configuration response; when the first failing
outbound call got no response the handler sends the 500 no-response body; when it
failed before a request was sent the handler sends 500 "Internal server error"; when it
was answered with an error status `s` and a body other than `null` the handler sends
status `s` with the fields `error` and `code`, `code` holding `s`. -/
theorem failure_responses (key : Option String) (net : String → NetResult) (q : Query) :
    (queryParam q = none →
        handler key net q = ⟨[], .sent ⟨400, .obj [("error",
          .str "City or latitude/longitude parameters are required")]⟩⟩) ∧
      (∀ frag, queryParam q = some frag → envTruthy key = false →
        handler key net q = ⟨[], .sent ⟨500, .obj [("error",
          .str "Server configuration error: API Key missing")]⟩⟩) ∧
      (∀ frag e, queryParam q = some frag → envTruthy key = true →
        (tryBlock key net frag).2 = .error e →
        (e.response = none → e.request = true →
          (handler key net q).outcome = .sent ⟨500, .obj [("error",
            .str "No response from external weather service")]⟩) ∧
        (e.response = none → e.request = false →
          (handler key net q).outcome = .sent ⟨500, .obj [("error",
            .str "Internal server error")]⟩) ∧
        (∀ s data, e.response = some (s, data) → data ≠ .null → s < 1000 →
          ∃ m, (handler key net q).outcome =
            .sent ⟨s, .obj [("error", m), ("code", .num (JsonNumber.ofNat s))]⟩) ∧
        (∀ s, e.response = some (s, .null) →
          (handler key net q).outcome = .uncaught)) := by
  refine ⟨fun hq => handler_no_location key net q hq,
    fun frag hq hk => handler_no_key key net q frag hq hk, ?_⟩
  intro frag e hq hk ht
  have hout := handler_outcome_error key net q frag e hq hk ht
  obtain ⟨resp, req⟩ := e
  refine ⟨?_, ?_, ?_, ?_⟩
  · intro hr hreq
    simp only at hr hreq
    rw [hout, hr, hreq]
    rfl
  · intro hr hreq
    simp only at hr hreq
    rw [hout, hr, hreq]
    rfl
  · intro s data hr hdata hs
    simp only at hr
    rw [hout, hr, catchBlock_response s data req hdata hs]
    exact ⟨_, rfl⟩
  · intro s hr
    simp only at hr
    rw [hout, hr]
    rfl

/-- A call that fails before any request is sent is answered with 500 and
"Internal server error". -/
theorem setup_failure_internal_error :
    (handler (some "k3y") (fun _ => .setupFailure)
        ⟨some (.str "Oslo"), none, none⟩).outcome =
      .sent ⟨500, .obj [("error", .str "Internal server error")]⟩ := by
  rfl

/-- The shape of every response the handler sends. One that is not the 200 success
has an `error` field. It has a `code` field exactly when the first failing outbound call
was answered by the upstream with an error status, and then its status is that upstream
status and `code` holds the same number. Every other failure has the field `error`
alone: status 400 and the missing-location text when no location is given, and status
500 otherwise, with the configuration text when the API key is missing, the no-response
text when the call got no response, and "Internal server error" for any other failure
of the call. -/
theorem failure_bodies (key : Option String) (net : String → NetResult) (q : Query)
    (r : Response) (h : (handler key net q).outcome = .sent r) :
    (r.status = 200 → ∃ C F, r.body = .obj [("current", C), ("forecast", F)]) ∧
      (r.status ≠ 200 → r.body.hasField "error" = true) ∧
      (r.body.hasField "code" = true ↔
        ∃ frag e s data, queryParam q = some frag ∧ envTruthy key = true ∧
          (tryBlock key net frag).2 = .error e ∧ e.response = some (s, data)) ∧
      (∀ frag e s data, queryParam q = some frag → envTruthy key = true →
        (tryBlock key net frag).2 = .error e → e.response = some (s, data) →
        ¬ (200 ≤ s ∧ s < 300) ∧ r.status = s ∧
          ∃ m c, r.body = .obj [("error", m), ("code", c)] ∧
            (s < 1000 → c = .num (JsonNumber.ofNat s))) ∧
      (r.status ≠ 200 → r.body.hasField "code" = false →
        (queryParam q = none ∧
            r = ⟨400, .obj [("error",
              .str "City or latitude/longitude parameters are required")]⟩) ∨
          (queryParam q ≠ none ∧ envTruthy key = false ∧
            r = ⟨500, .obj [("error",
              .str "Server configuration error: API Key missing")]⟩) ∨
          (∃ frag, queryParam q = some frag ∧ envTruthy key = true ∧
            (tryBlock key net frag).2 = .error ⟨none, true⟩ ∧
            r = ⟨500, .obj [("error",
              .str "No response from external weather service")]⟩) ∨
          (∃ frag, queryParam q = some frag ∧ envTruthy key = true ∧
            (tryBlock key net frag).2 = .error ⟨none, false⟩ ∧
            r = ⟨500, .obj [("error", .str "Internal server error")]⟩)) := by
  rcases handler_sent_cases key net q r h with
    ⟨hq, rfl⟩ | ⟨frag, hq, hk, rfl⟩ | ⟨frag, C, F, hq, hk, h1, h2, rfl⟩ |
    ⟨frag, e, hq, hk, ht, hc⟩
  · refine ⟨?_, ?_, ?_, ?_, ?_⟩
    · intro hst
      exact absurd hst (by decide)
    · intro _
      simp [missingLocationBody, Json.hasField]
    · constructor
      · intro hcode
        simp [missingLocationBody, Json.hasField] at hcode
      · rintro ⟨frag, e, s, data, hq2, -⟩
        rw [hq] at hq2
        exact absurd hq2 (by simp)
    · intro frag e s data hq2
      rw [hq] at hq2
      exact absurd hq2 (by simp)
    · intro _ _
      exact Or.inl ⟨hq, rfl⟩
  · refine ⟨?_, ?_, ?_, ?_, ?_⟩
    · intro hst
      exact absurd hst (by decide)
    · intro _
      simp [missingKeyBody, Json.hasField]
    · constructor
      · intro hcode
        simp [missingKeyBody, Json.hasField] at hcode
      · rintro ⟨frag2, e, s, data, -, hk2, -⟩
        rw [hk] at hk2
        exact absurd hk2 (by simp)
    · intro frag2 e s data _ hk2
      rw [hk] at hk2
      exact absurd hk2 (by simp)
    · intro _ _
      exact Or.inr (Or.inl ⟨by rw [hq]; simp, hk, rfl⟩)
  · have ht := tryBlock_both_succeed key net frag C F h1 h2
    refine ⟨?_, ?_, ?_, ?_, ?_⟩
    · intro _
      exact ⟨_, _, rfl⟩
    · intro hst
      exact absurd rfl hst
    · constructor
      · intro hcode
        simp [Json.hasField] at hcode
      · rintro ⟨frag2, e, s, data, hq2, -, ht2, -⟩
        rw [hq] at hq2
        simp only [Option.some.injEq] at hq2
        subst hq2
        rw [ht] at ht2
        simp at ht2
    · intro frag2 e s data hq2 _ ht2
      rw [hq] at hq2
      simp only [Option.some.injEq] at hq2
      subst hq2
      rw [ht] at ht2
      simp at ht2
    · intro hst
      exact absurd rfl hst
  · have hsrc : ∃ url, axiosGet net url = .error e := by
      rcases tryBlock_error_source key net frag e ht with he | ⟨-, he⟩
      · exact ⟨_, he⟩
      · exact ⟨_, he⟩
    obtain ⟨url, he⟩ := hsrc
    have hne := catchBlock_status_ne_200 net url e r he hc
    have huniq : ∀ frag2 e2, queryParam q = some frag2 →
        (tryBlock key net frag2).2 = .error e2 → e2 = e := by
      intro frag2 e2 hq2 ht2
      rw [hq] at hq2
      simp only [Option.some.injEq] at hq2
      subst hq2
      rw [ht] at ht2
      simp only [Except.error.injEq] at ht2
      exact ht2.symm
    refine ⟨?_, ?_, ?_, ?_, ?_⟩
    · intro hst
      exact absurd hst hne
    · intro _
      exact (catchBlock_fields e r hc).1
    · constructor
      · intro hcode
        rcases catchBlock_cases e r hc with
          ⟨s, data, m, c, hr, -, -⟩ | ⟨-, -, rfl⟩ | ⟨-, -, rfl⟩
        · exact ⟨frag, e, s, data, hq, hk, ht, hr⟩
        · simp [Json.hasField] at hcode
        · simp [Json.hasField] at hcode
      · rintro ⟨frag2, e2, s, data, hq2, -, ht2, hr2⟩
        rw [huniq frag2 e2 hq2 ht2] at hr2
        rcases catchBlock_cases e r hc with
          ⟨s2, data2, m, c, -, rfl, -⟩ | ⟨hr, -, -⟩ | ⟨hr, -, -⟩
        · simp [Json.hasField]
        · rw [hr] at hr2
          exact absurd hr2 (by simp)
        · rw [hr] at hr2
          exact absurd hr2 (by simp)
    · intro frag2 e2 s data hq2 _ ht2 hr2
      rw [huniq frag2 e2 hq2 ht2] at hr2
      refine ⟨(axiosGet_error_status net url e s data he hr2).1, ?_⟩
      rcases catchBlock_cases e r hc with
        ⟨s2, data2, m, c, hr, rfl, hcode⟩ | ⟨hr, -, -⟩ | ⟨hr, -, -⟩
      · rw [hr] at hr2
        simp only [Option.some.injEq, Prod.mk.injEq] at hr2
        obtain ⟨rfl, -⟩ := hr2
        exact ⟨rfl, m, c, rfl, hcode⟩
      · rw [hr] at hr2
        exact absurd hr2 (by simp)
      · rw [hr] at hr2
        exact absurd hr2 (by simp)
    · intro _ hcode
      rcases catchBlock_cases e r hc with ⟨s, data, m, c, -, rfl, -⟩ | ⟨hr, hreq, rfl⟩ |
        ⟨hr, hreq, rfl⟩
      · simp [Json.hasField] at hcode
      · refine Or.inr (Or.inr (Or.inl ⟨frag, hq, hk, ?_, rfl⟩))
        rw [ht]
        obtain ⟨resp, req⟩ := e
        simp only at hr hreq
        rw [hr, hreq]
      · refine Or.inr (Or.inr (Or.inr ⟨frag, hq, hk, ?_, rfl⟩))
        rw [ht]
        obtain ⟨resp, req⟩ := e
        simp only at hr hreq
        rw [hr, hreq]

theorem failure_bodies_at_503 :
    (handler (some "k3y") (fun _ => .response 503 (.str "Service Unavailable"))
        ⟨none, some (.str "59.9"), some (.str "10.7")⟩).outcome =
        .sent ⟨503, .obj [("error", .str "Error from external weather service"),
          ("code", .num (JsonNumber.ofNat 503))]⟩ ∧
      Json.hasField "error" (.obj [("error", .str "Error from external weather service"),
          ("code", .num (JsonNumber.ofNat 503))]) = true :=
  ⟨rfl, (failure_bodies (some "k3y") (fun _ => .response 503 (.str "Service Unavailable"))
    ⟨none, some (.str "59.9"), some (.str "10.7")⟩
    ⟨503, .obj [("error", .str "Error from external weather service"),
      ("code", .num (JsonNumber.ofNat 503))]⟩ rfl).2.1 (by decide)⟩

/-! ## Sanity checks of the embedding -/

theorem encodeURIComponent_space : encodeURIComponent "New York" = "New%20York" := by
  decide

theorem encodeURIComponent_latin : encodeURIComponent "São Paulo" = "S%C3%A3o%20Paulo" := by
  decide

theorem encodeURIComponent_reserved :
    encodeURIComponent "a&b=c/d?e" = "a%26b%3Dc%2Fd%3Fe" := by
  decide

theorem encodeURIComponent_cjk : encodeURIComponent "東京" = "%E6%9D%B1%E4%BA%AC" := by
  decide

theorem encodeURIComponent_astral : encodeURIComponent "😀" = "%F0%9F%98%80" := by
  rfl

theorem encodeURIComponent_unreserved :
    encodeURIComponent "Az09-_.!~*()" = "Az09-_.!~*()" := by
  decide

theorem ofDecimal_one : JsonNumber.ofDecimal false 1 0 = .finite false 1023 0 := by
  decide

theorem ofDecimal_tenth :
    JsonNumber.ofDecimal false 1 (-1) = .finite false 1019 0x999999999999A := by
  decide

theorem ofNat_status : JsonNumber.ofNat 404 = .finite false 1031 0x9400000000000 := by
  decide

/-- A literal with more digits than a double holds decodes to the nearest double, here
`12345678901234567168`. -/
theorem ofDecimal_rounds :
    JsonNumber.ofDecimal false 12345678901234567890 0 =
      .finite false 1086 1524563898622945 := by
  decide

/-- The shortest text of that double, as `JSON.stringify` writes it, denotes the same
double. -/
theorem ofDecimal_rounds_shortest :
    JsonNumber.ofDecimal false 12345678901234567000 0 =
      .finite false 1086 1524563898622945 := by
  decide

theorem ofDecimal_tie_to_even :
    JsonNumber.ofDecimal false 9007199254740993 0 = .finite false 1076 0 := by
  decide

theorem ofDecimal_largest :
    JsonNumber.ofDecimal false 17976931348623157 292 =
      .finite false 2046 (2 ^ 52 - 1) := by
  set_option exponentiation.threshold 4000 in decide

theorem ofDecimal_smallest :
    JsonNumber.ofDecimal false 5 (-324) = .finite false 0 1 := by
  set_option exponentiation.threshold 4000 in decide

/-- A literal beyond the double range decodes to an infinity. -/
theorem ofDecimal_overflow : JsonNumber.ofDecimal false 1 400 = .infinite false := by
  set_option exponentiation.threshold 4000 in decide

/-- A literal below half the smallest double decodes to zero, which is falsy. -/
theorem ofDecimal_underflow : JsonNumber.ofDecimal false 1 (-400) = .finite false 0 0 := by
  set_option exponentiation.threshold 4000 in decide

theorem jsonStringify_negative_zero :
    jsonStringify (.num (JsonNumber.ofDecimal true 0 0)) =
      .num (JsonNumber.ofDecimal false 0 0) := by
  rfl

/-- A `message` that decodes to zero, such as `1e-400`, is replaced by the generic
text. -/
theorem tiny_message_gets_generic_text :
    (handler (some "k3y")
        (fun _ => .response 404
          (.obj [("message", .num (JsonNumber.ofDecimal false 1 (-400)))]))
        ⟨some (.str "Paris"), none, none⟩).outcome =
      .sent ⟨404, .obj [("error", .str "Error from external weather service"),
        ("code", .num (JsonNumber.ofNat 404))]⟩ := by
  rw [ofDecimal_underflow]
  rfl

/-- A query value that is the string `0` is truthy: `lat=0&lon=0` is a valid location. -/
theorem queryParam_zero :
    queryParam ⟨none, some (.str "0"), some (.str "0")⟩ = some "lat=0&lon=0" := by
  decide

/-- A repeated `city` parameter is joined with a comma before it is encoded. -/
theorem queryParam_repeated_city :
    queryParam ⟨some (.arr ["Oslo", "Bergen"]), none, none⟩ = some "q=Oslo%2CBergen" := by
  decide

/-- An upstream error whose body is JSON `null` makes the property read of line 65
throw inside the catch block: the handler sends no response. -/
theorem null_error_body_escapes (key : String) (q : Query) (frag : String) (s : Nat)
    (hkey : key ≠ "") (hq : queryParam q = some frag) (hs : ¬ (200 ≤ s ∧ s < 300)) :
    (handler (some key) (fun _ => .response s .null) q).outcome = .uncaught := by
  have hk : envTruthy (some key) = true := by simp [envTruthy, hkey]
  rw [handler_valid (some key) _ q frag hq hk,
    tryBlock_current_fails (some key) _ frag _ (axiosGet_rejects_status _ _ s .null rfl hs)]
  rfl

end WeatherBackend
